import Mathlib

/-!
Shallow embedding of `src/zynlibs/zynaudio8x/spdif_duplex.c`, the ALSA SoC
SPDIF DID (Digital Interface Duplex) driver stub, together with proofs about
its channel-count configuration and registration behaviour.

The driver's observable behaviour is: at probe time it reads two optional
device-tree u32 properties (`capture-channels`, `playback-channels`) into a
local `val` preset to 2, overwrites the corresponding `channels_max` field of
the static global `duplex_stub_dai` whenever `val < 385 && (val % 2) == 0`,
and then calls `devm_snd_soc_register_component` once with the component
driver, a pointer to `duplex_stub_dai`, and `num_dai = 1`, returning that
call's result unchanged.
-/

/-- Rate bits of the kernel PCM ABI (`include/sound/pcm.h`):
`SNDRV_PCM_RATE_8000_96000` is the bitwise or of the rate bits for 8000 Hz
(bit 1) through 96000 Hz (bit 10). -/
def SNDRV_PCM_RATE_8000_96000 : Nat :=
  (1 <<< 1) ||| (1 <<< 2) ||| (1 <<< 3) ||| (1 <<< 4) ||| (1 <<< 5) |||
  (1 <<< 6) ||| (1 <<< 7) ||| (1 <<< 8) ||| (1 <<< 9) ||| (1 <<< 10)

/-- Format bit `SNDRV_PCM_FMTBIT_S16_LE` (format code 2 in the kernel ABI). -/
def SNDRV_PCM_FMTBIT_S16_LE : Nat := 1 <<< 2

/-- Format bit `SNDRV_PCM_FMTBIT_S20_3LE` (format code 34 in the kernel ABI). -/
def SNDRV_PCM_FMTBIT_S20_3LE : Nat := 1 <<< 34

/-- Format bit `SNDRV_PCM_FMTBIT_S24_LE` (format code 6 in the kernel ABI). -/
def SNDRV_PCM_FMTBIT_S24_LE : Nat := 1 <<< 6

/-- Format bit `SNDRV_PCM_FMTBIT_S32_LE` (format code 10 in the kernel ABI). -/
def SNDRV_PCM_FMTBIT_S32_LE : Nat := 1 <<< 10

/-- Format bit `SNDRV_PCM_FMTBIT_IEC958_SUBFRAME_LE` (format code 18 in the
kernel ABI). -/
def SNDRV_PCM_FMTBIT_IEC958_SUBFRAME_LE : Nat := 1 <<< 18

/-- The `STUB_RATES` macro of the source: `SNDRV_PCM_RATE_8000_96000`. -/
def STUB_RATES : Nat := SNDRV_PCM_RATE_8000_96000

/-- The `STUB_FORMATS` macro of the source: the bitwise or of the five format
bits S16_LE, S20_3LE, S24_LE, S32_LE and IEC958_SUBFRAME_LE. -/
def STUB_FORMATS : Nat :=
  SNDRV_PCM_FMTBIT_S16_LE ||| SNDRV_PCM_FMTBIT_S20_3LE |||
  SNDRV_PCM_FMTBIT_S24_LE ||| SNDRV_PCM_FMTBIT_S32_LE |||
  SNDRV_PCM_FMTBIT_IEC958_SUBFRAME_LE

/-- Kind of a DAPM widget: `SND_SOC_DAPM_INPUT` or `SND_SOC_DAPM_OUTPUT`. -/
inductive dapm_widget_kind where
  | input
  | output
deriving DecidableEq

/-- One entry of a `snd_soc_dapm_widget` table: the widget kind and name. -/
structure snd_soc_dapm_widget where
  kind : dapm_widget_kind
  name : String
deriving DecidableEq

/-- One entry of a `snd_soc_dapm_route` table: sink, optional control, source. -/
structure snd_soc_dapm_route where
  sink : String
  control : Option String
  source : String
deriving DecidableEq

/-- The static `duplex_widgets` table: the input pin `spdif-in` and the output
pin `spdif-out`. -/
def duplex_widgets : List snd_soc_dapm_widget :=
  [⟨.input, "spdif-in"⟩, ⟨.output, "spdif-out"⟩]

/-- The static `duplex_routes` table, each entry read as
{sink, control, source}: the sink `Capture` is fed by the source `spdif-in`,
and the sink `Playback` is fed by the source `spdif-out`. Note the second
entry's orientation: the output pin is the source, not the sink — the
reverse of the upstream SPDIF DIT driver's `{ "spdif-out", NULL,
"Playback" }` that this file says it is based on. -/
def duplex_routes : List snd_soc_dapm_route :=
  [⟨"Capture", none, "spdif-in"⟩, ⟨"Playback", none, "spdif-out"⟩]

/-- The fields of `struct snd_soc_component_driver` that the source sets. -/
structure snd_soc_component_driver where
  dapm_widgets : List snd_soc_dapm_widget
  num_dapm_widgets : Nat
  dapm_routes : List snd_soc_dapm_route
  num_dapm_routes : Nat
  idle_bias_on : Bool
  use_pmdown_time : Bool
  endianness : Bool
deriving DecidableEq

/-- The static component driver `soc_codec_spdif_duplex`. -/
def soc_codec_spdif_duplex : snd_soc_component_driver :=
  { dapm_widgets := duplex_widgets
    num_dapm_widgets := duplex_widgets.length
    dapm_routes := duplex_routes
    num_dapm_routes := duplex_routes.length
    idle_bias_on := true
    use_pmdown_time := true
    endianness := true }

/-- One direction of `struct snd_soc_dai_driver` (`struct snd_soc_pcm_stream`):
stream name, channel bounds, rate mask and format mask. -/
structure snd_soc_pcm_stream where
  stream_name : String
  channels_min : Nat
  channels_max : Nat
  rates : Nat
  formats : Nat
deriving DecidableEq

/-- The fields of `struct snd_soc_dai_driver` that the source sets. -/
structure snd_soc_dai_driver where
  name : String
  capture : snd_soc_pcm_stream
  playback : snd_soc_pcm_stream
deriving DecidableEq

/-- The static initializer of the global `duplex_stub_dai`: DAI name
`did-hifi`, both directions with `channels_min = 1`, `channels_max = 384`,
`STUB_RATES` and `STUB_FORMATS`. This is the value the global holds before
any probe runs. -/
def duplex_stub_dai : snd_soc_dai_driver :=
  { name := "did-hifi"
    capture := { stream_name := "Capture"
                 channels_min := 1
                 channels_max := 384
                 rates := STUB_RATES
                 formats := STUB_FORMATS }
    playback := { stream_name := "Playback"
                  channels_min := 1
                  channels_max := 384
                  rates := STUB_RATES
                  formats := STUB_FORMATS } }

/-- The device-tree node seen by the probe: the two optional u32 properties
`capture-channels` and `playback-channels`. An absent or unreadable property
is `none`. -/
structure device_node where
  capture_channels : Option Nat
  playback_channels : Option Nat
deriving DecidableEq

/-- Semantics of `of_property_read_u32(np, name, &val)` followed by reading
`val`: if the property is present its value overwrites `val`; if it is absent
`val` keeps the value it held before the call. The probe ignores the return
code. -/
def of_property_read_u32 (prop : Option Nat) (val : Nat) : Nat :=
  match prop with
  | some v => v
  | none => val

/-- The state transformation that `spdif_duplex_probe` performs on the static
global `duplex_stub_dai` (`state` is the global's contents when the probe
starts): `val` is preset to 2, `of_property_read_u32` reads
`capture-channels`, and `capture.channels_max` is overwritten when
`val < 385 && (val % 2) == 0`; then the same for `playback-channels` and
`playback.channels_max`. -/
def spdif_duplex_probe (state : snd_soc_dai_driver) (np : device_node) :
    snd_soc_dai_driver :=
  let val := of_property_read_u32 np.capture_channels 2
  let state1 :=
    if val < 385 ∧ val % 2 = 0 then
      { state with capture := { state.capture with channels_max := val } }
    else state
  let val2 := of_property_read_u32 np.playback_channels 2
  if val2 < 385 ∧ val2 % 2 = 0 then
    { state1 with playback := { state1.playback with channels_max := val2 } }
  else state1

/-- One invocation of `devm_snd_soc_register_component`, as observed by the
external framework: the component driver, the contents of the DAI driver
table at call time, and `num_dai`. -/
structure RegisterCall where
  component : snd_soc_component_driver
  dai : snd_soc_dai_driver
  num_dai : Nat
deriving DecidableEq

/-- The complete observable effect of one `spdif_duplex_probe` run: the final
contents of the static `duplex_stub_dai`, the list of registration calls
issued, and the probe's return value, where `reg_result` is the value the
external `devm_snd_soc_register_component` returns (0 on success, a negative
errno on failure). The probe mutates the global first, then registers once,
and returns the registration result unchanged. -/
def spdif_duplex_probe_run (state : snd_soc_dai_driver) (np : device_node)
    (reg_result : Int) : snd_soc_dai_driver × List RegisterCall × Int :=
  let state1 := spdif_duplex_probe state np
  (state1, [⟨soc_codec_spdif_duplex, state1, 1⟩], reg_result)

/-- The static `spdif_duplex_dt_ids` match table: compatibility string
`linux,spdif-did`. -/
def spdif_duplex_dt_ids : List String := ["linux,spdif-did"]

/-- The fields of `struct platform_driver` that the source sets. -/
structure platform_driver where
  name : String
  of_match_table : List String
deriving DecidableEq

/-- The static platform driver `spdif_duplex_driver`: driver name
`spdif-did`, matching `spdif_duplex_dt_ids`. -/
def spdif_duplex_driver : platform_driver :=
  { name := "spdif-did", of_match_table := spdif_duplex_dt_ids }

/-- The capture stream after a probe: overwritten with the read value when
the validity check passes, otherwise unchanged. The playback branch of the
probe never touches the capture stream. -/
theorem spdif_duplex_probe_capture (st : snd_soc_dai_driver)
    (np : device_node) :
    (spdif_duplex_probe st np).capture =
      (if (of_property_read_u32 np.capture_channels 2) < 385 ∧
          (of_property_read_u32 np.capture_channels 2) % 2 = 0 then
        { st.capture with
            channels_max := of_property_read_u32 np.capture_channels 2 }
       else st.capture) := by
  unfold spdif_duplex_probe
  dsimp only
  split <;> split <;> rfl

/-- The playback stream after a probe: overwritten with the read value when
the validity check passes, otherwise unchanged. The capture branch of the
probe never touches the playback stream. -/
theorem spdif_duplex_probe_playback (st : snd_soc_dai_driver)
    (np : device_node) :
    (spdif_duplex_probe st np).playback =
      (if (of_property_read_u32 np.playback_channels 2) < 385 ∧
          (of_property_read_u32 np.playback_channels 2) % 2 = 0 then
        { st.playback with
            channels_max := of_property_read_u32 np.playback_channels 2 }
       else st.playback) := by
  unfold spdif_duplex_probe
  dsimp only
  split <;> split <;> rfl

/-- The probe never changes the DAI name. -/
theorem spdif_duplex_probe_name (st : snd_soc_dai_driver) (np : device_node) :
    (spdif_duplex_probe st np).name = st.name := by
  unfold spdif_duplex_probe
  dsimp only
  split <;> split <;> rfl

/-- Claim C1 counterexample: on the first device attachment (global still at
its static initializer), a present-but-odd `capture-channels = 7` leaves the
capture channel-count maximum at 384, not at the default 2, while an absent
field yields 2 — so field-missing and field-present-but-invalid do not
produce the same resulting state. -/
theorem C1_counterexample :
    (spdif_duplex_probe duplex_stub_dai ⟨some 7, none⟩).capture.channels_max
      = 384 ∧
    (spdif_duplex_probe duplex_stub_dai ⟨none, none⟩).capture.channels_max
      = 2 ∧
    ¬ (spdif_duplex_probe duplex_stub_dai ⟨some 7, none⟩).capture.channels_max
      = 2 := by
  refine ⟨rfl, rfl, ?_⟩
  decide

/-- Claim C1 (amended): an absent channel-count field yields the default 2,
but a field present with a value failing the validity check (v ≥ 385 or v
odd) leaves that direction's channel-count maximum at its pre-probe value —
384 on the first attachment — rather than setting it to 2, so field-missing
and field-present-but-invalid do not produce the same resulting state. -/
theorem C1_amended (st : snd_soc_dai_driver) (np : device_node) :
    (np.capture_channels = none →
      (spdif_duplex_probe st np).capture.channels_max = 2) ∧
    (np.playback_channels = none →
      (spdif_duplex_probe st np).playback.channels_max = 2) ∧
    (∀ v, np.capture_channels = some v → 385 ≤ v ∨ v % 2 = 1 →
      (spdif_duplex_probe st np).capture.channels_max
        = st.capture.channels_max) ∧
    (∀ v, np.playback_channels = some v → 385 ≤ v ∨ v % 2 = 1 →
      (spdif_duplex_probe st np).playback.channels_max
        = st.playback.channels_max) := by
  refine ⟨?_, ?_, ?_, ?_⟩
  · intro h
    rw [spdif_duplex_probe_capture, h]
    rfl
  · intro h
    rw [spdif_duplex_probe_playback, h]
    rfl
  · intro v h hv
    rw [spdif_duplex_probe_capture, h]
    have : ¬ ((of_property_read_u32 (some v) 2) < 385 ∧
        (of_property_read_u32 (some v) 2) % 2 = 0) := by
      simp only [of_property_read_u32]
      rcases hv with hv | hv
      · exact fun hc => absurd hc.1 (by omega)
      · exact fun hc => by omega
    rw [if_neg this]
  · intro v h hv
    rw [spdif_duplex_probe_playback, h]
    have : ¬ ((of_property_read_u32 (some v) 2) < 385 ∧
        (of_property_read_u32 (some v) 2) % 2 = 0) := by
      simp only [of_property_read_u32]
      rcases hv with hv | hv
      · exact fun hc => absurd hc.1 (by omega)
      · exact fun hc => by omega
    rw [if_neg this]

/-- Witness for the amended claim C1, at the concrete node with
`capture-channels = 7` (odd, so kept at the pre-probe value 384) and no
`playback-channels` (absent, so set to the default 2). -/
theorem C1_amended_witness :
    (spdif_duplex_probe duplex_stub_dai ⟨some 7, none⟩).capture.channels_max
      = duplex_stub_dai.capture.channels_max ∧
    (spdif_duplex_probe duplex_stub_dai ⟨some 7, none⟩).playback.channels_max
      = 2 := by
  constructor
  · exact (C1_amended duplex_stub_dai ⟨some 7, none⟩).2.2.1 7 rfl
      (Or.inr (by decide))
  · exact (C1_amended duplex_stub_dai ⟨some 7, none⟩).2.1 rfl

/-- Claim C2: a configuration value v with v < 385 and v even, supplied in
`capture-channels` (respectively `playback-channels`), makes the capture
(respectively playback) channel-count maximum after the probe equal v. -/
theorem C2_valid_value_overrides (st : snd_soc_dai_driver)
    (np : device_node) :
    (∀ v, np.capture_channels = some v → v < 385 → v % 2 = 0 →
      (spdif_duplex_probe st np).capture.channels_max = v) ∧
    (∀ v, np.playback_channels = some v → v < 385 → v % 2 = 0 →
      (spdif_duplex_probe st np).playback.channels_max = v) := by
  constructor
  · intro v h h1 h2
    rw [spdif_duplex_probe_capture, h]
    rw [if_pos ⟨h1, h2⟩]
    rfl
  · intro v h h1 h2
    rw [spdif_duplex_probe_playback, h]
    rw [if_pos ⟨h1, h2⟩]
    rfl

/-- Witness for claim C2, at the concrete node with `capture-channels = 8`
and `playback-channels = 384` (both valid), starting from the static
initializer. -/
theorem C2_valid_value_overrides_witness :
    (spdif_duplex_probe duplex_stub_dai ⟨some 8, some 384⟩).capture.channels_max
      = 8 ∧
    (spdif_duplex_probe duplex_stub_dai ⟨some 8, some 384⟩).playback.channels_max
      = 384 := by
  constructor
  · exact (C2_valid_value_overrides duplex_stub_dai ⟨some 8, some 384⟩).1 8
      rfl (by decide) (by decide)
  · exact (C2_valid_value_overrides duplex_stub_dai ⟨some 8, some 384⟩).2 384
      rfl (by decide) (by decide)

/-- Claim C3: before any probe runs, the static initializer sets both
channel-count maxima to 384; a field present but failing the validity check
(v ≥ 385 or v odd) leaves `channels_max` at its pre-probe value rather than
setting it to 2; only an absent field (assigning 2) or a valid value
(assigning v) causes an assignment. -/
theorem C3_static_initializer_and_invalid_keeps (st : snd_soc_dai_driver) :
    duplex_stub_dai.capture.channels_max = 384 ∧
    duplex_stub_dai.playback.channels_max = 384 ∧
    (∀ np v, np.capture_channels = some v → 385 ≤ v ∨ v % 2 = 1 →
      (spdif_duplex_probe st np).capture.channels_max
        = st.capture.channels_max) ∧
    (∀ np v, np.playback_channels = some v → 385 ≤ v ∨ v % 2 = 1 →
      (spdif_duplex_probe st np).playback.channels_max
        = st.playback.channels_max) ∧
    (∀ np, np.capture_channels = none →
      (spdif_duplex_probe st np).capture.channels_max = 2) ∧
    (∀ np, np.playback_channels = none →
      (spdif_duplex_probe st np).playback.channels_max = 2) ∧
    (∀ np v, np.capture_channels = some v → v < 385 → v % 2 = 0 →
      (spdif_duplex_probe st np).capture.channels_max = v) ∧
    (∀ np v, np.playback_channels = some v → v < 385 → v % 2 = 0 →
      (spdif_duplex_probe st np).playback.channels_max = v) := by
  refine ⟨rfl, rfl, ?_, ?_, ?_, ?_, ?_, ?_⟩
  · intro np v h hv
    rw [spdif_duplex_probe_capture, h]
    have : ¬ ((of_property_read_u32 (some v) 2) < 385 ∧
        (of_property_read_u32 (some v) 2) % 2 = 0) := by
      simp only [of_property_read_u32]
      intro hc
      omega
    rw [if_neg this]
  · intro np v h hv
    rw [spdif_duplex_probe_playback, h]
    have : ¬ ((of_property_read_u32 (some v) 2) < 385 ∧
        (of_property_read_u32 (some v) 2) % 2 = 0) := by
      simp only [of_property_read_u32]
      intro hc
      omega
    rw [if_neg this]
  · intro np h
    rw [spdif_duplex_probe_capture, h]
    rfl
  · intro np h
    rw [spdif_duplex_probe_playback, h]
    rfl
  · intro np v h h1 h2
    rw [spdif_duplex_probe_capture, h]
    rw [if_pos ⟨h1, h2⟩]
    rfl
  · intro np v h h1 h2
    rw [spdif_duplex_probe_playback, h]
    rw [if_pos ⟨h1, h2⟩]
    rfl

/-- Witness for claim C3, at the concrete node with `capture-channels = 386`
(too large, capture maximum kept at the pre-probe 384) and
`playback-channels = 4` (valid, playback maximum set to 4). -/
theorem C3_static_initializer_and_invalid_keeps_witness :
    (spdif_duplex_probe duplex_stub_dai ⟨some 386, some 4⟩).capture.channels_max
      = duplex_stub_dai.capture.channels_max ∧
    (spdif_duplex_probe duplex_stub_dai ⟨some 386, some 4⟩).playback.channels_max
      = 4 := by
  constructor
  · exact (C3_static_initializer_and_invalid_keeps duplex_stub_dai).2.2.1
      ⟨some 386, some 4⟩ 386 rfl (Or.inl (by decide))
  · exact (C3_static_initializer_and_invalid_keeps duplex_stub_dai).2.2.2.2.2.2.2
      ⟨some 386, some 4⟩ 4 rfl (by decide) (by decide)

/-- Claim C4: the two directions are computed independently — changing the
`playback-channels` field does not change the resulting capture stream, and
changing the `capture-channels` field does not change the resulting playback
stream, whatever the starting state. -/
theorem C4_directions_independent (st : snd_soc_dai_driver)
    (c c' p p' : Option Nat) :
    (spdif_duplex_probe st ⟨c, p⟩).capture
      = (spdif_duplex_probe st ⟨c, p'⟩).capture ∧
    (spdif_duplex_probe st ⟨c, p⟩).playback
      = (spdif_duplex_probe st ⟨c', p⟩).playback := by
  constructor
  · rw [spdif_duplex_probe_capture, spdif_duplex_probe_capture]
  · rw [spdif_duplex_probe_playback, spdif_duplex_probe_playback]

/-- Claim C5: the channel-count minimum of both descriptors is 1 from the
static initializer, the probe never modifies either minimum, and after any
probe from the initial state both minima are still 1. -/
theorem C5_channels_min_always_one (st : snd_soc_dai_driver)
    (np : device_node) :
    duplex_stub_dai.capture.channels_min = 1 ∧
    duplex_stub_dai.playback.channels_min = 1 ∧
    (spdif_duplex_probe st np).capture.channels_min
      = st.capture.channels_min ∧
    (spdif_duplex_probe st np).playback.channels_min
      = st.playback.channels_min ∧
    (spdif_duplex_probe duplex_stub_dai np).capture.channels_min = 1 ∧
    (spdif_duplex_probe duplex_stub_dai np).playback.channels_min = 1 := by
  have cap : ∀ s : snd_soc_dai_driver,
      (spdif_duplex_probe s np).capture.channels_min
        = s.capture.channels_min := by
    intro s
    rw [spdif_duplex_probe_capture]
    split <;> rfl
  have play : ∀ s : snd_soc_dai_driver,
      (spdif_duplex_probe s np).playback.channels_min
        = s.playback.channels_min := by
    intro s
    rw [spdif_duplex_probe_playback]
    split <;> rfl
  exact ⟨rfl, rfl, cap st, play st, cap duplex_stub_dai,
    play duplex_stub_dai⟩

/-- Claim C6, evaluated on the code: every probe run does issue exactly one
registration call with exactly two routing declarations and exactly one DAI
descriptor (`num_dai = 1`), regardless of configuration and of the
registration outcome — but the second declaration registered is
{sink `Playback`, source `spdif-out`}, i.e. Playback fed by the output pin,
and no declaration with sink `spdif-out` is registered, so the declaration
`output pin fed by Playback` that the claim describes is not among the
routes the code submits. -/
theorem C6_route_orientation_bug (st : snd_soc_dai_driver)
    (np : device_node) (e : Int) :
    (spdif_duplex_probe_run st np e).2.1
      = [⟨soc_codec_spdif_duplex, spdif_duplex_probe st np, 1⟩] ∧
    soc_codec_spdif_duplex.dapm_routes
      = [⟨"Capture", none, "spdif-in"⟩, ⟨"Playback", none, "spdif-out"⟩] ∧
    soc_codec_spdif_duplex.num_dapm_routes = 2 ∧
    soc_codec_spdif_duplex.dapm_routes.contains
      ⟨"Playback", none, "spdif-out"⟩ = true ∧
    soc_codec_spdif_duplex.dapm_routes.contains
      ⟨"spdif-out", none, "Playback"⟩ = false := by
  exact ⟨rfl, rfl, rfl, by decide, by decide⟩

/-- Replacing the capture maximum after a probe gives the same stream as
replacing it before the probe: the probe touches no capture field other than
`channels_max`. -/
theorem spdif_duplex_probe_capture_update (st : snd_soc_dai_driver)
    (np : device_node) (v : Nat) :
    ({ (spdif_duplex_probe st np).capture with channels_max := v }
        : snd_soc_pcm_stream)
      = { st.capture with channels_max := v } := by
  rw [spdif_duplex_probe_capture]
  split <;> rfl

/-- Replacing the playback maximum after a probe gives the same stream as
replacing it before the probe: the probe touches no playback field other
than `channels_max`. -/
theorem spdif_duplex_probe_playback_update (st : snd_soc_dai_driver)
    (np : device_node) (v : Nat) :
    ({ (spdif_duplex_probe st np).playback with channels_max := v }
        : snd_soc_pcm_stream)
      = { st.playback with channels_max := v } := by
  rw [spdif_duplex_probe_playback]
  split <;> rfl

/-- When each present property passes the validity check, the probe's result
is fully determined: both maxima are overwritten with the read values (2 when
absent) and every other field is kept. -/
theorem spdif_duplex_probe_of_valid (st : snd_soc_dai_driver)
    (c p : Option Nat)
    (hc : c = none ∨ ∃ v, c = some v ∧ v < 385 ∧ v % 2 = 0)
    (hp : p = none ∨ ∃ v, p = some v ∧ v < 385 ∧ v % 2 = 0) :
    spdif_duplex_probe st ⟨c, p⟩ =
      { name := st.name
        capture := { st.capture with
                      channels_max := of_property_read_u32 c 2 }
        playback := { st.playback with
                      channels_max := of_property_read_u32 p 2 } } := by
  have hcap : (spdif_duplex_probe st ⟨c, p⟩).capture
      = { st.capture with channels_max := of_property_read_u32 c 2 } := by
    rw [spdif_duplex_probe_capture]
    rcases hc with h | ⟨v, hv, h1, h2⟩
    · subst h
      have hcond : of_property_read_u32 (none : Option Nat) 2 < 385 ∧
          of_property_read_u32 (none : Option Nat) 2 % 2 = 0 := by decide
      rw [if_pos hcond]
    · subst hv
      rw [if_pos ⟨h1, h2⟩]
  have hplay : (spdif_duplex_probe st ⟨c, p⟩).playback
      = { st.playback with channels_max := of_property_read_u32 p 2 } := by
    rw [spdif_duplex_probe_playback]
    rcases hp with h | ⟨v, hv, h1, h2⟩
    · subst h
      have hcond : of_property_read_u32 (none : Option Nat) 2 < 385 ∧
          of_property_read_u32 (none : Option Nat) 2 % 2 = 0 := by decide
      rw [if_pos hcond]
    · subst hv
      rw [if_pos ⟨h1, h2⟩]
  have heta : spdif_duplex_probe st ⟨c, p⟩ =
      { name := (spdif_duplex_probe st ⟨c, p⟩).name
        capture := (spdif_duplex_probe st ⟨c, p⟩).capture
        playback := (spdif_duplex_probe st ⟨c, p⟩).playback } := rfl
  rw [heta, spdif_duplex_probe_name, hcap, hplay]

/-- Claim C7 counterexample: with `capture-channels = 8` and a failing
registration (errno -12), the probe returns the error unchanged, yet the
override applied to the shared static descriptor before the registration
call persists — the final state differs from the pre-probe state, so
observable partial state remains on failure. -/
theorem C7_counterexample :
    (spdif_duplex_probe_run duplex_stub_dai ⟨some 8, none⟩ (-12)).2.2
      = -12 ∧
    (spdif_duplex_probe_run duplex_stub_dai
        ⟨some 8, none⟩ (-12)).1.capture.channels_max = 8 ∧
    (spdif_duplex_probe_run duplex_stub_dai ⟨some 8, none⟩ (-12)).1
      ≠ duplex_stub_dai := by
  refine ⟨rfl, rfl, ?_⟩
  intro h
  exact absurd (congrArg (fun s => s.capture.channels_max) h) (by decide)

/-- Claim C7 (amended): the probe returns the external registration result
unchanged and issues exactly one registration call (no retry, no further
action), but it is not atomic on failure: the channel-maximum overrides
applied to the shared static descriptor before the registration call remain
in place whatever the registration result. -/
theorem C7_amended (st : snd_soc_dai_driver) (np : device_node) (e : Int) :
    (spdif_duplex_probe_run st np e).2.2 = e ∧
    (spdif_duplex_probe_run st np e).2.1.length = 1 ∧
    (spdif_duplex_probe_run st np e).1 = spdif_duplex_probe st np := by
  exact ⟨rfl, rfl, rfl⟩

/-- Claim C8 counterexample: the probe mutates the shared static
`duplex_stub_dai`, so the descriptor of a second attachment depends on the
first attachment's configuration: with `capture-channels = 7` (invalid) on
the second run, the second run's capture maximum is 8 when the first run set
it to 8, but 2 when the first run had no configuration. -/
theorem C8_counterexample :
    (spdif_duplex_probe (spdif_duplex_probe duplex_stub_dai ⟨some 8, none⟩)
        ⟨some 7, none⟩).capture.channels_max = 8 ∧
    (spdif_duplex_probe (spdif_duplex_probe duplex_stub_dai ⟨none, none⟩)
        ⟨some 7, none⟩).capture.channels_max = 2 ∧
    spdif_duplex_probe (spdif_duplex_probe duplex_stub_dai ⟨some 8, none⟩)
        ⟨some 7, none⟩
      ≠ spdif_duplex_probe (spdif_duplex_probe duplex_stub_dai ⟨none, none⟩)
        ⟨some 7, none⟩ := by
  refine ⟨rfl, rfl, ?_⟩
  intro h
  exact absurd (congrArg (fun s => s.capture.channels_max) h) (by decide)

/-- Claim C8 (amended): descriptor construction shares the static mutable
`duplex_stub_dai` across attachments, so two-run noninterference holds only
when every field present on the second run passes the validity check (then
the second run overwrites both maxima and its result is independent of the
first run's configuration); a present-but-invalid field on the second run
instead exposes whatever the first run left in the descriptor. -/
theorem C8_amended (np1 np1' : device_node) (c p : Option Nat)
    (hc : c = none ∨ ∃ v, c = some v ∧ v < 385 ∧ v % 2 = 0)
    (hp : p = none ∨ ∃ v, p = some v ∧ v < 385 ∧ v % 2 = 0) :
    spdif_duplex_probe (spdif_duplex_probe duplex_stub_dai np1) ⟨c, p⟩
      = spdif_duplex_probe (spdif_duplex_probe duplex_stub_dai np1')
          ⟨c, p⟩ := by
  rw [spdif_duplex_probe_of_valid _ _ _ hc hp,
    spdif_duplex_probe_of_valid _ _ _ hc hp]
  rw [spdif_duplex_probe_capture_update, spdif_duplex_probe_capture_update,
    spdif_duplex_probe_playback_update, spdif_duplex_probe_playback_update,
    spdif_duplex_probe_name, spdif_duplex_probe_name]

/-- Witness for the amended claim C8: a second run with valid
`capture-channels = 4` and absent `playback-channels` produces the same
final descriptor whether the first run configured `capture-channels = 8`
with `playback-channels = 384` or an invalid `capture-channels = 500` with
nothing else. -/
theorem C8_amended_witness :
    spdif_duplex_probe
        (spdif_duplex_probe duplex_stub_dai ⟨some 8, some 384⟩)
        ⟨some 4, none⟩
      = spdif_duplex_probe
          (spdif_duplex_probe duplex_stub_dai ⟨some 500, none⟩)
          ⟨some 4, none⟩ := by
  exact C8_amended ⟨some 8, some 384⟩ ⟨some 500, none⟩ (some 4) none
    (Or.inr ⟨4, rfl, by decide, by decide⟩) (Or.inl rfl)

/-- The probe changes no capture field other than `channels_max`. -/
theorem spdif_duplex_probe_capture_frame (st : snd_soc_dai_driver)
    (np : device_node) :
    (spdif_duplex_probe st np).capture.stream_name
      = st.capture.stream_name ∧
    (spdif_duplex_probe st np).capture.channels_min
      = st.capture.channels_min ∧
    (spdif_duplex_probe st np).capture.rates = st.capture.rates ∧
    (spdif_duplex_probe st np).capture.formats = st.capture.formats := by
  rw [spdif_duplex_probe_capture]
  split <;> exact ⟨rfl, rfl, rfl, rfl⟩

/-- The probe changes no playback field other than `channels_max`. -/
theorem spdif_duplex_probe_playback_frame (st : snd_soc_dai_driver)
    (np : device_node) :
    (spdif_duplex_probe st np).playback.stream_name
      = st.playback.stream_name ∧
    (spdif_duplex_probe st np).playback.channels_min
      = st.playback.channels_min ∧
    (spdif_duplex_probe st np).playback.rates = st.playback.rates ∧
    (spdif_duplex_probe st np).playback.formats = st.playback.formats := by
  rw [spdif_duplex_probe_playback]
  split <;> exact ⟨rfl, rfl, rfl, rfl⟩

/-- Claim C9: for every configuration, the single registration call submits
the component driver with the two static routing declarations together with
the descriptor as mutated by the probe, whose DAI name is `did-hifi`,
whose rate set is `STUB_RATES`, whose format set is `STUB_FORMATS` (the or
of the five fixed encoding bits), and whose minima are 1, under the platform
driver name `spdif-did`; rate set, format set, stream names and routing
declarations are never affected by configuration. -/
theorem C9_registered_descriptor (np : device_node) (e : Int) :
    (spdif_duplex_probe_run duplex_stub_dai np e).2.1
      = [⟨soc_codec_spdif_duplex, spdif_duplex_probe duplex_stub_dai np, 1⟩]
      ∧
    (spdif_duplex_probe duplex_stub_dai np).name = "did-hifi" ∧
    spdif_duplex_driver.name = "spdif-did" ∧
    (spdif_duplex_probe duplex_stub_dai np).capture.stream_name
      = "Capture" ∧
    (spdif_duplex_probe duplex_stub_dai np).capture.rates = STUB_RATES ∧
    (spdif_duplex_probe duplex_stub_dai np).capture.formats = STUB_FORMATS ∧
    (spdif_duplex_probe duplex_stub_dai np).capture.channels_min = 1 ∧
    (spdif_duplex_probe duplex_stub_dai np).playback.stream_name
      = "Playback" ∧
    (spdif_duplex_probe duplex_stub_dai np).playback.rates = STUB_RATES ∧
    (spdif_duplex_probe duplex_stub_dai np).playback.formats
      = STUB_FORMATS ∧
    (spdif_duplex_probe duplex_stub_dai np).playback.channels_min = 1 ∧
    soc_codec_spdif_duplex.dapm_routes = duplex_routes ∧
    soc_codec_spdif_duplex.dapm_widgets = duplex_widgets ∧
    STUB_FORMATS = SNDRV_PCM_FMTBIT_S16_LE ||| SNDRV_PCM_FMTBIT_S20_3LE |||
      SNDRV_PCM_FMTBIT_S24_LE ||| SNDRV_PCM_FMTBIT_S32_LE |||
      SNDRV_PCM_FMTBIT_IEC958_SUBFRAME_LE := by
  obtain ⟨hcs, hcm, hcr, hcf⟩ :=
    spdif_duplex_probe_capture_frame duplex_stub_dai np
  obtain ⟨hps, hpm, hpr, hpf⟩ :=
    spdif_duplex_probe_playback_frame duplex_stub_dai np
  refine ⟨rfl, spdif_duplex_probe_name duplex_stub_dai np, rfl, ?_, ?_, ?_,
    ?_, ?_, ?_, ?_, ?_, rfl, rfl, rfl⟩
  · rw [hcs]
    rfl
  · rw [hcr]
    rfl
  · rw [hcf]
    rfl
  · rw [hcm]
    rfl
  · rw [hps]
    rfl
  · rw [hpr]
    rfl
  · rw [hpf]
    rfl
  · rw [hpm]
    rfl

/-- Claim C10: the value 0 passes the validity check (0 is even and below
385), so a field equal to 0 sets that direction's channel-count maximum to
0, which is strictly below the channel-count minimum of 1 — nothing enforces
`channels_min ≤ channels_max`, and the descriptor is registered as is. -/
theorem C10_zero_passes_validity (st : snd_soc_dai_driver)
    (np : device_node) :
    (np.capture_channels = some 0 →
      (spdif_duplex_probe st np).capture.channels_max = 0) ∧
    (np.playback_channels = some 0 →
      (spdif_duplex_probe st np).playback.channels_max = 0) ∧
    (spdif_duplex_probe duplex_stub_dai ⟨some 0, some 0⟩).capture.channels_max
      < (spdif_duplex_probe duplex_stub_dai
          ⟨some 0, some 0⟩).capture.channels_min ∧
    (spdif_duplex_probe duplex_stub_dai
        ⟨some 0, some 0⟩).playback.channels_max
      < (spdif_duplex_probe duplex_stub_dai
          ⟨some 0, some 0⟩).playback.channels_min ∧
    (spdif_duplex_probe_run duplex_stub_dai ⟨some 0, some 0⟩ 0).2.1
      = [⟨soc_codec_spdif_duplex,
          spdif_duplex_probe duplex_stub_dai ⟨some 0, some 0⟩, 1⟩] := by
  refine ⟨?_, ?_, by decide, by decide, rfl⟩
  · intro h
    rw [spdif_duplex_probe_capture, h]
    have hcond : of_property_read_u32 (some 0) 2 < 385 ∧
        of_property_read_u32 (some 0) 2 % 2 = 0 := by decide
    rw [if_pos hcond]
    rfl
  · intro h
    rw [spdif_duplex_probe_playback, h]
    have hcond : of_property_read_u32 (some 0) 2 < 385 ∧
        of_property_read_u32 (some 0) 2 % 2 = 0 := by decide
    rw [if_pos hcond]
    rfl

/-- Witness for claim C10, at the concrete node with both fields 0, starting
from the static initializer: both maxima become 0. -/
theorem C10_zero_passes_validity_witness :
    (spdif_duplex_probe duplex_stub_dai ⟨some 0, some 0⟩).capture.channels_max
      = 0 ∧
    (spdif_duplex_probe duplex_stub_dai
        ⟨some 0, some 0⟩).playback.channels_max = 0 := by
  constructor
  · exact (C10_zero_passes_validity duplex_stub_dai ⟨some 0, some 0⟩).1 rfl
  · exact (C10_zero_passes_validity duplex_stub_dai
      ⟨some 0, some 0⟩).2.1 rfl
